import Mathlib

/-!
# Verification of the multimodal product-discovery frontend and orchestrator spec

Shallow embedding of the repository's frontend code
(`src/frontend/src/services/api.js`, `src/frontend/src/components/*.jsx`,
the HomePage and VoiceRecorder components) together with spec-modelled
definitions for the backend orchestrator stages whose code is not in the
repository snapshot (input normalizer, intent thresholding, tool-result
merge).  Machine integers are modelled as `Nat`, monetary amounts and
confidences/scores as `ℚ`, JS `string | null` as `Option String`.
-/

/-! ## Files, blobs and form data (browser-side payloads) -/

/-- A browser `File`: name, byte size and MIME type. -/
structure JsFile where
  name : String
  size : Nat
  mime : String
deriving DecidableEq

/-- One chunk delivered by `MediaRecorder.ondataavailable`; `mime` is the
encoding the recorder actually produced for this chunk. -/
structure AudioChunk where
  mime : String
  size : Nat
deriving DecidableEq

/-- A JS `Blob` assembled from chunks with a declared (not verified) MIME type. -/
structure Blob where
  parts : List AudioChunk
  declaredType : String
deriving DecidableEq

/-- One entry of a `FormData` object: a `File` append, a `Blob` append with an
explicit filename, or a plain text field. -/
inductive FormPart where
  | fileF (fieldName : String) (f : JsFile)
  | blobF (fieldName : String) (b : Blob) (filename : String)
  | textF (fieldName : String) (value : String)
deriving DecidableEq

/-! ## `src/frontend/src/services/api.js` -/

/-- The axios client configuration (`axios.create` options). -/
structure ClientConfig where
  baseURL : String
  contentType : String
  timeout : Nat
deriving DecidableEq

/-- Embedding of `const api = axios.create({ baseURL, headers: {'Content-Type': 'application/json'}, timeout: 30000 })`
with the default `API_BASE_URL`. -/
def api : ClientConfig :=
  { baseURL := "http://localhost:8000"
  , contentType := "application/json"
  , timeout := 30000 }

/-- Outcome of an HTTP call made through the client. -/
inductive HttpResult where
  | completed (ms : Nat)
  | timedOut
deriving DecidableEq

/-- Modelled from the spec: the HTTP client library is external to the
repository; per the spec's cancellation model, "each request carries a global
deadline (default 30s)" and a call that has not produced a response within the
configured `timeout` terminates with a timeout error rather than waiting
indefinitely.  `responseAt = none` means the server never answers;
`responseAt = some t` means the response arrives after `t` ms.  The timeout
value itself comes from the `axios.create` call in
`src/frontend/src/services/api.js`. -/
def clientCall (cfg : ClientConfig) (responseAt : Option Nat) : HttpResult :=
  match responseAt with
  | some t => if t ≤ cfg.timeout then HttpResult.completed t else HttpResult.timedOut
  | none => HttpResult.timedOut

/-- The mutable per-request axios config seen by the request interceptor. -/
structure RequestConfig where
  url : String
  contentType : String
  xSessionId : Option String
deriving DecidableEq

/-- JS truthiness of a `string | null` value: truthy iff non-null and non-empty. -/
def jsTruthy : Option String → Bool
  | some s => s ≠ ""
  | none => false

/-- JS `String.prototype.trim`: strip leading and trailing whitespace. -/
def jsTrim (s : String) : String :=
  String.mk (((s.data.dropWhile Char.isWhitespace).reverse.dropWhile
    Char.isWhitespace).reverse)

/-- The request interceptor of `api.js`:
`const sessionId = localStorage.getItem('session_id'); if (sessionId) { config.headers['X-Session-ID'] = sessionId; } return config;`.
`stored` is the value of `localStorage.getItem('session_id')`. -/
def requestInterceptor (stored : Option String) (c : RequestConfig) : RequestConfig :=
  if jsTruthy stored then { c with xSessionId := stored } else c

/-- A request before the interceptor runs: no `X-Session-ID` header is set by
any caller in `api.js`. -/
def baseRequest : RequestConfig :=
  { url := "/api/query/text", contentType := "application/json", xSessionId := none }

/-- Body of the POST to `/api/query/text` — exactly the four fields built by
`queryText` in `api.js`. -/
structure TextQueryBody where
  query_text : String
  query_type : String
  filters : List (String × String)
  max_results : Nat
deriving DecidableEq

/-- A POST request to the text-query endpoint. -/
structure TextQueryRequest where
  url : String
  body : TextQueryBody
deriving DecidableEq

/-- Embedding of `queryText(queryText, filters = {}, maxResults = 10)` from `api.js`. -/
def queryText (q : String) (filters : List (String × String) := [])
    (maxResults : Nat := 10) : TextQueryRequest :=
  { url := "/api/query/text"
  , body :=
    { query_text := q
    , query_type := "text"
    , filters := filters
    , max_results := maxResults } }

/-- A multipart POST request to the image-query endpoint. -/
structure ImageQueryRequest where
  url : String
  form : List FormPart
deriving DecidableEq

/-- Embedding of `queryImage(imageFile, queryText = null, maxResults = 10)` from `api.js`. -/
def queryImage (imageFile : JsFile) (q : Option String := none)
    (maxResults : Nat := 10) : ImageQueryRequest :=
  { url := "/api/query/image"
  , form :=
      [FormPart.fileF "image" imageFile]
      ++ (match q with
          | some s => if s ≠ "" then [FormPart.textF "query_text" s] else []
          | none => [])
      ++ [FormPart.textF "max_results" (toString maxResults)] }

/-- A multipart POST request to the voice-query endpoint. -/
structure VoiceQueryRequest where
  url : String
  form : List FormPart
deriving DecidableEq

/-- Embedding of `queryVoice(audioBlob, maxResults = 10)` from `api.js`:
`formData.append('audio', audioBlob, 'recording.wav')`. -/
def queryVoice (audioBlob : Blob) (maxResults : Nat := 10) : VoiceQueryRequest :=
  { url := "/api/query/voice"
  , form :=
      [ FormPart.blobF "audio" audioBlob "recording.wav"
      , FormPart.textF "max_results" (toString maxResults) ] }

/-! ## `VoiceRecorder` component -/

/-- Embedding of `mediaRecorder.ondataavailable`: a chunk is kept only when `e.data.size > 0`. -/
def voiceRecorderDataAvailable (collected : List AudioChunk) (e : AudioChunk) :
    List AudioChunk :=
  if 0 < e.size then collected ++ [e] else collected

/-- The chunk list accumulated over a sequence of `ondataavailable` events. -/
def collectChunks (events : List AudioChunk) : List AudioChunk :=
  events.foldl voiceRecorderDataAvailable []

/-- Embedding of `mediaRecorder.onstop`: `new Blob(chunksRef.current, { type: 'audio/wav' })` —
the declared type is always `audio/wav` regardless of the chunks' encoding. -/
def recorderOnStop (collected : List AudioChunk) : Blob :=
  { parts := collected, declaredType := "audio/wav" }

/-! ## `ImageUpload` component -/

/-- The accepted image extensions from the dropzone config of `ImageUpload.jsx`. -/
def imageExtensions : List String := [".jpeg", ".jpg", ".png", ".gif", ".webp"]

/-- Whether a file matches the dropzone `accept` config
`{'image/*': ['.jpeg','.jpg','.png','.gif','.webp']}`: MIME matches `image/*`
or the filename carries one of the listed extensions. -/
def acceptsImageType (f : JsFile) : Bool :=
  f.mime.startsWith "image/" || imageExtensions.any (fun e => f.name.endsWith e)

/-- Modelled from the spec: the `react-dropzone` library (external to the
repository) classifies a dropped file as accepted when it matches the `accept`
config and does not exceed `maxSize`, and as rejected otherwise; the `accept`
map and `maxSize` are the configuration passed to `useDropzone` in
`ImageUpload.jsx`. -/
def dropzoneAccepts (maxSize : Nat) (f : JsFile) : Bool :=
  acceptsImageType f && f.size ≤ maxSize

/-- The default `maxSize` prop of `ImageUpload` (5 MB). -/
def defaultMaxSize : Nat := 5242880

/-- Component state of `ImageUpload`: the preview (the file whose data-URL is
shown) and the error message. -/
structure UploadState where
  preview : Option JsFile
  err : Option String
deriving DecidableEq

/-- Embedding of `onDrop(acceptedFiles, rejectedFiles)` from `ImageUpload.jsx`.  Returns the
new component state and the file passed to `onImageSelect` (if any).  In the
accepted branch the `FileReader.onload` callback sets the preview to the file's
data URL, modelled as the file itself. -/
def onDrop (maxSize : Nat) (st : UploadState)
    (acceptedFiles rejectedFiles : List JsFile) : UploadState × Option JsFile :=
  match rejectedFiles with
  | r :: _ =>
      let msg :=
        if maxSize < r.size then
          "File too large. Maximum size is " ++ toString (maxSize / 1024 / 1024) ++ "MB"
        else "Invalid file type. Please upload an image."
      ({ preview := st.preview, err := some msg }, none)
  | [] =>
      match acceptedFiles with
      | f :: _ => ({ preview := some f, err := none }, some f)
      | [] => ({ preview := st.preview, err := none }, none)

/-- One file dropped on the `ImageUpload` dropzone: the library classifies it,
then `onDrop` runs. -/
def handleFileDrop (maxSize : Nat) (st : UploadState) (f : JsFile) :
    UploadState × Option JsFile :=
  if dropzoneAccepts maxSize f then onDrop maxSize st [f] []
  else onDrop maxSize st [] [f]

/-! ## `SearchInput` component -/

/-- Embedding of `handleSubmit` from `SearchInput.jsx`:
`if (query.trim() && !loading) { onSearch(query.trim()) }`.  Returns the
argument passed to `onSearch`, or `none` when no search is initiated. -/
def handleSubmit (query : String) (loading : Bool) : Option String :=
  if (jsTrim query != "") && !loading then some (jsTrim query) else none

/-! ## `HomePage` search handlers (`src/unnamed/part_004`) -/

/-- A text search submitted through `SearchInput`: the request issued to the
text endpoint, if any (`handleTextSearch` calls `queryText(query)` with the
defaults). -/
def textSearchRequest (input : String) (loading : Bool) : Option TextQueryRequest :=
  (handleSubmit input loading).map (fun q => queryText q)

/-- Embedding of `handleImageSearch(imageFile)`: `if (!imageFile) return` — no request is
issued when no image file is selected. -/
def handleImageSearch (imageFile : Option JsFile) : Option ImageQueryRequest :=
  match imageFile with
  | none => none
  | some f => some (queryImage f)

/-- A voice search: `handleVoiceSearch` runs only when `VoiceRecorder` delivers
a recorded blob via `onRecordingComplete`; with no recording it never runs. -/
def voiceSearchRequest (recording : Option Blob) : Option VoiceQueryRequest :=
  recording.map (fun b => queryVoice b)

/-! ## `ProductCard` component -/

/-- Product data as delivered in tool outputs and destructured by
`ProductCard.jsx`, including the rating statistics the review-analysis tool
reports. -/
structure ProductData where
  id : String
  name : String
  description : String
  images : List String
  category : String
  brand : Option String
  bestPriceAmount : Option ℚ
  bestPriceRetailer : Option String
  rating : Option ℚ
  reviewCount : Option Nat

/-- Embedding of `renderRating(rating)` from `ProductCard.jsx`: for `i = 1..5` a star is
filled iff `i ≤ rating`.  `true` stands for a filled star. -/
def renderRating (rating : Nat) : List Bool :=
  (List.range 5).map (fun i => decide (i + 1 ≤ rating))

/-- What `ProductCard` actually renders for a product. -/
structure RenderedCard where
  nameShown : String
  categoryShown : String
  stars : List Bool
  reviewCountShown : Nat
  priceShown : Option ℚ
deriving DecidableEq

/-- The `ProductCard` render: the rating row is `renderRating(4)` and the
review count is the literal `(128)`, independent of the product. -/
def productCard (p : ProductData) : RenderedCard :=
  { nameShown := p.name
  , categoryShown := p.category
  , stars := renderRating 4
  , reviewCountShown := 128
  , priceShown := p.bestPriceAmount }

/-! ## Spec-modelled backend: Input Normalizer -/

/-- A raw multimodal payload at pipeline entry: zero or more of
{text, image bytes, audio bytes}. -/
structure RawPayload where
  text : Option String
  image : Option JsFile
  audio : Option Blob
deriving DecidableEq

/-- Errors of the normalizer stage. -/
inductive NormalizeError where
  | validationError
deriving DecidableEq

/-- The canonical Query produced by the normalizer (spec §3). -/
structure Query where
  text : Option String
  image : Option JsFile
  audio : Option Blob
deriving DecidableEq

/-- Whether any modality is present: non-blank text, an image, or audio. -/
def modalityPresent (p : RawPayload) : Bool :=
  (match p.text with | some t => jsTrim t != "" | none => false)
  || p.image.isSome || p.audio.isSome

/-- Size/format limits given to the normalizer by configuration. -/
structure NormalizerConfig where
  maxImageBytes : Nat
  maxAudioBytes : Nat
  imageFormats : List String
  audioFormats : List String
deriving DecidableEq

/-- Modelled from the spec: the backend Input Normalizer is not part of the
repository snapshot (only the frontend is).  Per spec §4.1 it "fails with
`ValidationError` when no modality is present, a payload exceeds its configured
maximum size, or an image/audio format is unsupported", and otherwise shapes
the payload into a canonical Query with no other side effects. -/
def normalizeInput (cfg : NormalizerConfig) (p : RawPayload) :
    Except NormalizeError Query :=
  if !(modalityPresent p) then Except.error NormalizeError.validationError
  else if (match p.image with
           | some f => decide (cfg.maxImageBytes < f.size)
                       || !(cfg.imageFormats.contains f.mime)
           | none => false) then Except.error NormalizeError.validationError
  else if (match p.audio with
           | some b => !(cfg.audioFormats.contains b.declaredType)
           | none => false) then Except.error NormalizeError.validationError
  else Except.ok { text := p.text, image := p.image, audio := p.audio }

/-! ## Spec-modelled backend: Intent Classifier thresholding and tool execution -/

/-- Intent kinds (spec §3). -/
inductive IntentKind where
  | search | compare | recommend | purchase | clarify | unknown
deriving DecidableEq

/-- A classified Intent: kind and confidence ∈ [0,1]. -/
structure Intent where
  kind : IntentKind
  confidence : ℚ
deriving DecidableEq

/-- The configured confidence threshold's default value (spec §4.4). -/
def defaultThreshold : ℚ := 1/2

/-- Modelled from the spec: the Intent Classifier's code is not in the
repository snapshot.  Per spec §4.4, "if resulting confidence < configured
threshold (default 0.5), force `kind = clarify`". -/
def applyThreshold (threshold : ℚ) (i : Intent) : Intent :=
  if i.confidence < threshold then { i with kind := IntentKind.clarify } else i

/-- One recorded tool invocation (spec §3). -/
structure ToolInvocation where
  toolName : String
  success : Bool
  error : Option String
deriving DecidableEq

/-- A tool of the registry: `can_handle` and `execute` (spec §4.5). -/
structure Tool where
  name : String
  canHandle : Intent → Bool
  execute : Intent → ToolInvocation

/-- Modelled from the spec: the Tool Registry & Executor is not in the
repository snapshot.  It selects every tool whose `can_handle` returns true and
runs it, recording one ToolInvocation per selected tool. -/
def runTools (tools : List Tool) (i : Intent) : List ToolInvocation :=
  tools.filterMap (fun t => if t.canHandle i then some (t.execute i) else none)

/-- One turn of the conversation log (spec §3). -/
structure Turn where
  query : Query
  intent : Intent
  invocations : List ToolInvocation

/-- Modelled from the spec: the post-classification part of a pipeline turn.
Per spec §4.4, after thresholding the pipeline does "not proceed to tool
execution" when the intent kind is `clarify` — no tool is invoked
speculatively on low-confidence intent, and no ToolInvocation is recorded for
the turn. -/
def finishTurn (threshold : ℚ) (tools : List Tool) (q : Query) (rawIntent : Intent) :
    Turn :=
  let i := applyThreshold threshold rawIntent
  { query := q
  , intent := i
  , invocations :=
      if i.kind = IntentKind.clarify then [] else runTools tools i }

/-- Modelled from the spec: the pipeline (spec §2 control flow) — the
Normalizer runs first and on `ValidationError` no downstream stage executes;
`rawIntent` stands for the classifier's pre-threshold fusion of the modality
signals (external model calls). -/
def pipeline (cfg : NormalizerConfig) (threshold : ℚ) (tools : List Tool)
    (p : RawPayload) (rawIntent : Intent) : Except NormalizeError Turn :=
  (normalizeInput cfg p).map (fun q => finishTurn threshold tools q rawIntent)

/-! ## Spec-modelled backend: tool-result merge and ranking (spec §4.5) -/

/-- One product-bearing entry of a tool result: product id, combined score and
match-reason strings. -/
structure ScoredProduct where
  pid : String
  score : ℚ
  reasons : List String
deriving DecidableEq

/-- Modelled from the spec: merging two entries with the same product id keeps
"the highest score" and concatenates "distinct match-reason strings". -/
def combineEntries (x y : ScoredProduct) : ScoredProduct :=
  { pid := x.pid
  , score := max x.score y.score
  , reasons := x.reasons ++ y.reasons.filter (fun r => !(x.reasons.contains r)) }

/-- Fold one entry into the accumulated de-duplicated list: combine with the
existing entry of the same product id, or append. -/
def insertResult (acc : List ScoredProduct) (x : ScoredProduct) : List ScoredProduct :=
  match acc with
  | [] => [x]
  | y :: rest =>
      if y.pid = x.pid then combineEntries y x :: rest
      else y :: insertResult rest x

/-- Modelled from the spec: "de-duplicate by product id keeping the highest
score and concatenating distinct match-reason strings" (the Tool Registry &
Executor's merge step; its code is not in the repository snapshot). -/
def dedupe (l : List ScoredProduct) : List ScoredProduct :=
  l.foldl insertResult []

/-- The merge ordering: `a` comes before `b` when `a` has the strictly higher
combined score, or equal scores and `a.pid ≤ b.pid`. -/
def rankBefore (a b : ScoredProduct) : Prop :=
  b.score < a.score ∨ (a.score = b.score ∧ a.pid ≤ b.pid)

instance (a b : ScoredProduct) : Decidable (rankBefore a b) :=
  inferInstanceAs (Decidable (_ ∨ _))

instance : IsTotal ScoredProduct rankBefore where
  total a b := by
    rcases lt_trichotomy a.score b.score with h | h | h
    · exact Or.inr (Or.inl h)
    · rcases le_total a.pid b.pid with hp | hp
      · exact Or.inl (Or.inr ⟨h, hp⟩)
      · exact Or.inr (Or.inr ⟨h.symm, hp⟩)
    · exact Or.inl (Or.inl h)

instance : IsTrans ScoredProduct rankBefore where
  trans a b c hab hbc := by
    rcases hab with h1 | ⟨e1, p1⟩ <;> rcases hbc with h2 | ⟨e2, p2⟩
    · exact Or.inl (h2.trans h1)
    · exact Or.inl (e2.symm.trans_lt h1)
    · exact Or.inl (h2.trans_le e1.symm.le)
    · exact Or.inr ⟨e1.trans e2, p1.trans p2⟩

/-- The strict ordering the output satisfies between any earlier and any later
entry: strictly higher score, or equal scores and strictly smaller product id. -/
def rankStrict (a b : ScoredProduct) : Prop :=
  b.score < a.score ∨ (a.score = b.score ∧ a.pid < b.pid)

/-- Modelled from the spec: the merge of the product-bearing tool results —
concatenate, de-duplicate by product id, then sort with "final ordering ...
descending combined score, ties broken by lexicographic product id". -/
def mergeResults (results : List (List ScoredProduct)) : List ScoredProduct :=
  List.insertionSort rankBefore (dedupe results.flatten)

theorem combineEntries_pid (x y : ScoredProduct) : (combineEntries x y).pid = x.pid :=
  rfl

theorem mem_insertResult_pid (x : ScoredProduct) :
    ∀ (acc : List ScoredProduct) (z : ScoredProduct), z ∈ insertResult acc x →
      z.pid = x.pid ∨ ∃ y ∈ acc, z.pid = y.pid := by
  intro acc
  induction acc with
  | nil =>
      intro z hz
      simp only [insertResult, List.mem_singleton] at hz
      exact Or.inl (hz ▸ rfl)
  | cons y rest ih =>
      intro z hz
      by_cases hp : y.pid = x.pid
      · simp only [insertResult, if_pos hp, List.mem_cons] at hz
        rcases hz with hz | hz
        · exact Or.inr ⟨y, List.mem_cons_self y rest, hz ▸ combineEntries_pid y x⟩
        · exact Or.inr ⟨z, List.mem_cons_of_mem y hz, rfl⟩
      · simp only [insertResult, if_neg hp, List.mem_cons] at hz
        rcases hz with hz | hz
        · exact Or.inr ⟨y, List.mem_cons_self y rest, hz ▸ rfl⟩
        · rcases ih z hz with h1 | ⟨y', hy', h2⟩
          · exact Or.inl h1
          · exact Or.inr ⟨y', List.mem_cons_of_mem y hy', h2⟩

theorem insertResult_pairwiseNe (x : ScoredProduct) :
    ∀ acc : List ScoredProduct, acc.Pairwise (fun a b => a.pid ≠ b.pid) →
      (insertResult acc x).Pairwise (fun a b => a.pid ≠ b.pid) := by
  intro acc
  induction acc with
  | nil =>
      intro _
      simp [insertResult]
  | cons y rest ih =>
      intro h
      rcases List.pairwise_cons.1 h with ⟨hy, hrest⟩
      by_cases hp : y.pid = x.pid
      · simp only [insertResult, if_pos hp]
        refine List.pairwise_cons.2 ⟨?_, hrest⟩
        intro z hz
        rw [combineEntries_pid]
        exact hy z hz
      · simp only [insertResult, if_neg hp]
        refine List.pairwise_cons.2 ⟨?_, ih hrest⟩
        intro z hz
        rcases mem_insertResult_pid x rest z hz with h1 | ⟨y', hy', h2⟩
        · rw [h1]; exact hp
        · rw [h2]; exact hy y' hy'

theorem foldl_insertResult_pairwiseNe :
    ∀ (l acc : List ScoredProduct), acc.Pairwise (fun a b => a.pid ≠ b.pid) →
      (l.foldl insertResult acc).Pairwise (fun a b => a.pid ≠ b.pid) := by
  intro l
  induction l with
  | nil => intro acc h; exact h
  | cons x rest ih => intro acc h; exact ih _ (insertResult_pairwiseNe x acc h)

theorem dedupe_pairwiseNe (l : List ScoredProduct) :
    (dedupe l).Pairwise (fun a b => a.pid ≠ b.pid) :=
  foldl_insertResult_pairwiseNe l [] List.Pairwise.nil

theorem mergeResults_pairwise_rankBefore (results : List (List ScoredProduct)) :
    (mergeResults results).Pairwise rankBefore :=
  List.sorted_insertionSort rankBefore (dedupe results.flatten)

theorem mergeResults_pairwiseNe (results : List (List ScoredProduct)) :
    (mergeResults results).Pairwise (fun a b => a.pid ≠ b.pid) :=
  ((List.perm_insertionSort rankBefore (dedupe results.flatten)).pairwise_iff
    (fun hab => hab.symm)).2 (dedupe_pairwiseNe results.flatten)

/-! ## Claim theorems -/

/-- Claim C1: for every query in which no modality is present (text empty or
whitespace-only, no image file selected, no audio recorded), the pipeline fails
with `ValidationError` and no downstream stage executes; in particular the
frontend issues no request to any query endpoint for such an input. -/
theorem noModality_validationError_no_request (cfg : NormalizerConfig)
    (threshold : ℚ) (tools : List Tool) (p : RawPayload) (rawIntent : Intent)
    (input : String) (loading : Bool)
    (hp : modalityPresent p = false) (ht : jsTrim input = "") :
    pipeline cfg threshold tools p rawIntent
      = Except.error NormalizeError.validationError
    ∧ textSearchRequest input loading = none
    ∧ handleImageSearch none = none
    ∧ voiceSearchRequest none = none := by
  refine ⟨?_, ?_, rfl, rfl⟩
  · simp [pipeline, normalizeInput, hp, Except.map]
  · simp [textSearchRequest, handleSubmit, ht]

/-- Witness for C1 at a whitespace-only text payload with no image and no
audio. -/
theorem noModality_witness :
    pipeline ⟨5242880, 10485760, ["image/png"], ["audio/wav"]⟩ defaultThreshold []
        ⟨some "   ", none, none⟩ ⟨IntentKind.search, 9⟩
      = Except.error NormalizeError.validationError
    ∧ textSearchRequest "   " false = none
    ∧ handleImageSearch none = none
    ∧ voiceSearchRequest none = none :=
  noModality_validationError_no_request _ defaultThreshold [] _ _ "   " false
    (by decide) (by decide)

/-- Claim C2: for every intent classification whose confidence is below the
configured threshold (default 0.5), the intent kind is forced to `clarify`, the
pipeline does not proceed to tool execution, and no `ToolInvocation` is
recorded for that turn. -/
theorem lowConfidence_clarify_no_tools (threshold : ℚ) (tools : List Tool)
    (q : Query) (rawIntent : Intent) (h : rawIntent.confidence < threshold) :
    (finishTurn threshold tools q rawIntent).intent.kind = IntentKind.clarify
    ∧ (finishTurn threshold tools q rawIntent).invocations = []
    ∧ defaultThreshold = 1/2 := by
  refine ⟨?_, ?_, rfl⟩ <;> simp [finishTurn, applyThreshold, h]

/-- Witness for C2 at a raw `search` intent of confidence 0 against the
default threshold. -/
theorem lowConfidence_witness :
    (finishTurn defaultThreshold [] ⟨some "jacket", none, none⟩
        ⟨IntentKind.search, 0⟩).intent.kind = IntentKind.clarify
    ∧ (finishTurn defaultThreshold [] ⟨some "jacket", none, none⟩
        ⟨IntentKind.search, 0⟩).invocations = []
    ∧ defaultThreshold = 1/2 :=
  lowConfidence_clarify_no_tools defaultThreshold [] ⟨some "jacket", none, none⟩
    ⟨IntentKind.search, 0⟩ one_half_pos

/-- Claim C3: every merged product-bearing result list is ordered descending by
combined score, entries of equal score ordered by ascending (lexicographic)
product id — a strict ordering between any earlier and later entry, so the
merged list is deterministic for the same inputs. -/
theorem mergeResults_ordering (results : List (List ScoredProduct)) :
    (mergeResults results).Pairwise rankStrict :=
  ((mergeResults_pairwise_rankBefore results).and
    (mergeResults_pairwiseNe results)).imp
    (fun hab =>
      match hab with
      | ⟨Or.inl hlt, _⟩ => Or.inl hlt
      | ⟨Or.inr ⟨he, hle⟩, hne⟩ => Or.inr ⟨he, lt_of_le_of_ne hle hne⟩)

/-- Claim C4: an image payload exceeding the configured maximum size or of an
unsupported format fails validation with an error message, is not passed on as
a selected image, and the existing preview state is unchanged. -/
theorem imageUpload_rejects (maxSize : Nat) (st : UploadState) (f : JsFile)
    (h : maxSize < f.size ∨ acceptsImageType f = false) :
    (handleFileDrop maxSize st f).2 = none
    ∧ (handleFileDrop maxSize st f).1.err.isSome = true
    ∧ (handleFileDrop maxSize st f).1.preview = st.preview := by
  have hacc : dropzoneAccepts maxSize f = false := by
    rcases h with h | h
    · simp [dropzoneAccepts, Nat.not_le.2 h]
    · simp [dropzoneAccepts, h]
  simp [handleFileDrop, hacc, onDrop]

/-- Witness for C4: a 6 MB PNG against the default 5 MB limit is rejected with
an error, not selected, and leaves the (empty) preview unchanged. -/
theorem imageUpload_witness :
    (handleFileDrop defaultMaxSize ⟨none, none⟩ ⟨"big.png", 6000000, "image/png"⟩).2
      = none
    ∧ (handleFileDrop defaultMaxSize ⟨none, none⟩
        ⟨"big.png", 6000000, "image/png"⟩).1.err.isSome = true
    ∧ (handleFileDrop defaultMaxSize ⟨none, none⟩
        ⟨"big.png", 6000000, "image/png"⟩).1.preview = none :=
  imageUpload_rejects defaultMaxSize ⟨none, none⟩ ⟨"big.png", 6000000, "image/png"⟩
    (Or.inl (by decide))

/-- Claim C5: the shared client carries a 30000 ms timeout by default, and any
call through it that has not completed within that budget terminates with a
timeout error instead of waiting indefinitely. -/
theorem client_timeout_default (t : Nat) (h : api.timeout < t) :
    clientCall api (some t) = HttpResult.timedOut
    ∧ clientCall api none = HttpResult.timedOut
    ∧ api.timeout = 30000 := by
  refine ⟨?_, rfl, rfl⟩
  simp [clientCall, Nat.not_le.2 h]

/-- Witness for C5 at a response arriving after 30001 ms. -/
theorem client_timeout_witness :
    clientCall api (some 30001) = HttpResult.timedOut
    ∧ clientCall api none = HttpResult.timedOut
    ∧ api.timeout = 30000 :=
  client_timeout_default 30001 (by decide)

/-- Claim C6 (evaluation of the code at the failing behaviour): `ProductCard`
renders `renderRating(4)` — four filled stars — and the literal review count
128 for every product, independent of the product data delivered in the tool
outputs. -/
theorem productCard_fabricates_rating (p : ProductData) :
    (productCard p).stars = renderRating 4
    ∧ (productCard p).stars.count true = 4
    ∧ (productCard p).reviewCountShown = 128 :=
  ⟨rfl, rfl, rfl⟩

/-- Claim C7: a text query issued with only the query text supplied posts to
`/api/query/text` a body consisting exactly of
`{query_text, query_type: "text", filters: {}, max_results: 10}`. -/
theorem queryText_default_shape (q : String) :
    queryText q =
      { url := "/api/query/text"
      , body :=
        { query_text := q
        , query_type := "text"
        , filters := []
        , max_results := 10 } } :=
  rfl

/-- Claim C8: the recorded audio of a voice query is always uploaded under the
fixed filename `recording.wav` with declared MIME type `audio/wav`, regardless
of the encoding of the chunks the browser's `MediaRecorder` produced. -/
theorem voiceUpload_fixed_filename (events : List AudioChunk) (maxResults : Nat) :
    (recorderOnStop (collectChunks events)).declaredType = "audio/wav"
    ∧ (queryVoice (recorderOnStop (collectChunks events)) maxResults).form.head?
        = some (FormPart.blobF "audio" (recorderOnStop (collectChunks events))
            "recording.wav") :=
  ⟨rfl, rfl⟩

/-- Claim C9 counterexample: with the empty string stored under `session_id`,
a value is present in localStorage (`getItem` returns non-null) yet the
interceptor does not attach the `X-Session-ID` header — refuting "attached if
and only if a session_id value is present". -/
theorem interceptor_counterexample :
    ¬ (((requestInterceptor (some "") baseRequest).xSessionId.isSome = true)
        ↔ ((some "" : Option String).isSome = true)) := by
  decide

/-- Claim C9 as amended: the `X-Session-ID` header is attached if and only if a
non-empty session_id value is present in localStorage when the request is made;
the interceptor never fabricates a session id and leaves the request otherwise
unmodified. -/
theorem interceptor_attaches_iff_nonempty (stored : Option String)
    (c : RequestConfig) (h : c.xSessionId = none) :
    ((requestInterceptor stored c).xSessionId
        = if jsTruthy stored then stored else none)
    ∧ (requestInterceptor stored c).url = c.url
    ∧ (requestInterceptor stored c).contentType = c.contentType := by
  by_cases ht : jsTruthy stored
  · simp [requestInterceptor, ht]
  · simp [requestInterceptor, ht, h]

/-- Witness for amended C9 at a non-empty stored session id. -/
theorem interceptor_witness :
    ((requestInterceptor (some "abc123") baseRequest).xSessionId
        = if jsTruthy (some "abc123") then some "abc123" else none)
    ∧ (requestInterceptor (some "abc123") baseRequest).url = baseRequest.url
    ∧ (requestInterceptor (some "abc123") baseRequest).contentType
        = baseRequest.contentType :=
  interceptor_attaches_iff_nonempty (some "abc123") baseRequest rfl

/-- Claim C10: whenever `SearchInput` delivers a query to the search handler,
that query is the user's input with leading and trailing whitespace removed,
and no submission is initiated while a previous search is still loading. -/
theorem searchInput_trims_and_blocks (q : String) (l : Bool) (s : String)
    (h : handleSubmit q l = some s) : s = jsTrim q ∧ l = false := by
  unfold handleSubmit at h
  by_cases hc : ((jsTrim q != "") && !l) = true
  · rw [if_pos hc] at h
    rw [Bool.and_eq_true] at hc
    rcases hc with ⟨-, hl⟩
    exact ⟨(Option.some.inj h).symm, by simpa using hl⟩
  · rw [if_neg hc] at h
    exact absurd h (by simp)

/-- Witness for C10 at the input `"  red jacket  "` with no search loading. -/
theorem searchInput_witness :
    "red jacket" = jsTrim "  red jacket  " ∧ false = false :=
  searchInput_trims_and_blocks "  red jacket  " false "red jacket" (by decide)
